import Mathlib

/-!
Shallow embedding of the transcode-orchestration core of the repository
(`src/core/ffmpeg_manager.py`, `src/core/gpu_detector.py`,
`src/core/video_processor.py`, plus the pure validation core of
`src/gui/main_window.py` / `src/gui/widgets.py`).

Python strings are modelled as Lean `String` (operated on through their
`List Char` data), Python floats as `ℚ`, Python ints as `Int`/`Nat`,
raised exceptions as `Except PyError`.  Every definition carries a
reference to the source lines it translates.
-/

set_option autoImplicit false

namespace FFmpegImp

/-! ## String helpers (models of the Python primitives used by the core) -/

/-- Model of Python `str.lower()` for the ASCII strings handled by this
code base (all dictionary keys and search keywords in the source are
ASCII, so ASCII case-folding is faithful at every call site). -/
def pyLower (s : String) : String :=
  String.mk (s.data.map Char.toLower)

/-- Decide whether `pat` occurs as a contiguous substring of the haystack,
the model of Python's `pat in hay`. -/
def containsL (pat : List Char) : List Char → Bool
  | [] => pat.isEmpty
  | c :: r => pat.isPrefixOf (c :: r) || containsL pat r

/-- Model of Python `pat in hay` on strings. -/
def containsStr (hay pat : String) : Bool :=
  containsL pat.data hay.data

/-- Model of Python `hay.split(sep)` for a single-character separator:
`"a:b".split(":") = ["a","b"]`, `":".split(":") = ["",""]`. -/
def splitOnCharL (sep : Char) : List Char → List (List Char)
  | [] => [[]]
  | c :: r =>
    let rest := splitOnCharL sep r
    if c = sep then [] :: rest
    else
      match rest with
      | h :: t => (c :: h) :: t
      | [] => [[c]]

/-- Character of a decimal digit value (`0 ↦ '0'`, …, `9 ↦ '9'`). -/
def digitChar (n : Nat) : Char :=
  Char.ofNat (48 + n)

/-- Model of Python `int(s)` on the all-digit strings produced by the
`\d+`-style captures of this code base. -/
def natOfDigits (l : List Char) : Nat :=
  l.foldl (fun a c => a * 10 + (c.toNat - 48)) 0

/-- Decimal digits of a natural number, fuel-driven so that it reduces
inside the kernel. -/
def natDigitsAux : Nat → Nat → List Char
  | 0, _ => []
  | fuel + 1, n =>
    if n < 10 then [digitChar n]
    else natDigitsAux fuel (n / 10) ++ [digitChar (n % 10)]

/-- Decimal rendering of a natural number. -/
def natStr (n : Nat) : List Char :=
  natDigitsAux (n + 1) n

/-- Model of Python `str(n)` for an `int`. -/
def intStr (n : Int) : String :=
  if n < 0 then String.mk ('-' :: natStr n.natAbs) else String.mk (natStr n.toNat)

/-- Model of the Python format `f"{n:02d}"`: non-negative one-digit values
are zero-padded to width two; every other value is rendered as `str(n)`
(which already has width at least two). -/
def fmt02 (n : Int) : String :=
  if 0 ≤ n ∧ n < 10 then String.mk ['0', digitChar n.toNat] else intStr n

/-- Characters matched by the regex class `\s` (Python ASCII whitespace). -/
def pyIsSpace (c : Char) : Bool :=
  c = ' ' || c = '\t' || c = '\n' || c = '\r' || c = '\x0b' || c = '\x0c'

/-- Characters matched by the regex class `[0-9.]`. -/
def numDot (c : Char) : Bool :=
  c.isDigit || c = '.'

/-- Exact decimal value `intVal.fracDigits` assembled as a rational. -/
def ratOfParts (intVal : Nat) (fracDigits : List Char) : ℚ :=
  (intVal : ℚ) + (natOfDigits fracDigits : ℚ) / (10 : ℚ) ^ fracDigits.length

/-- Model of Python `float(s)` restricted to the strings that reach it in
this code base (captures of `[0-9.]+`/`\d+`, colon-split timestamp parts,
and the `N/A` sentinel): a string made of digits and at most one dot,
containing at least one digit, parses to its decimal value; everything
else raises `ValueError`, modelled as `none`. -/
def pyFloat (l : List Char) : Option ℚ :=
  if l.isEmpty then none
  else if l.all numDot && l.count '.' ≤ 1 && l.any Char.isDigit then
    let intPart := l.takeWhile (fun c => c ≠ '.')
    let fracPart := (l.dropWhile (fun c => c ≠ '.')).drop 1
    some (ratOfParts (natOfDigits intPart) fracPart)
  else none

/-- Model of Python `int(x)` on a float: truncation toward zero. -/
def pyTrunc (q : ℚ) : Int :=
  if 0 ≤ q then ⌊q⌋ else -⌊-q⌋

/-- Leftmost-search driver: try the pattern-matcher `f` at every start
position of the text, left to right, and return the first success — the
model of `re.search` for the patterns of this code base (each of which
begins with a fixed literal). -/
def scanOpt {α : Type} (f : List Char → Option α) : List Char → Option α
  | [] => f []
  | c :: r =>
    match f (c :: r) with
    | some v => some v
    | none => scanOpt f r

/-- Strip a literal pattern prefix, the first step of each `re` pattern
used in `video_processor.py`. -/
def stripPre (pat : List Char) (l : List Char) : Option (List Char) :=
  if pat.isPrefixOf l then some (l.drop pat.length) else none

/-! ## `src/core/gpu_detector.py` -/

/-- The `ffmpeg_gpu_support` mapping of `GPUDetector` (gpu_detector.py:27-34):
one boolean per capability key. -/
structure SupportFlags where
  cuda : Bool
  nvenc : Bool
  amf : Bool
  opencl : Bool
  dxva2 : Bool
  d3d11va : Bool
  deriving DecidableEq, Repr

/-- The mapping created by `GPUDetector.__init__` (gpu_detector.py:27-34):
every flag `False`. -/
def initSupport : SupportFlags :=
  ⟨false, false, false, false, false, false⟩

/-- Outcome of one `subprocess.run` introspection call inside
`check_ffmpeg_gpu_support`: a run that returned (with its stdout and
`returncode == 0`), a run that returned non-zero, or a raised exception
(timeout, missing binary, …) that aborts the surrounding `try` block. -/
inductive ProcResult where
  | ok (stdout : String)
  | fail
  | exn
  deriving DecidableEq, Repr

/-- The four hardware-accelerator assignments performed in source order on
a successful `-hwaccels` call (gpu_detector.py:237-244); `o` is the
already-lowercased stdout.  Each element of the returned list is a value
the shared mapping takes on, in order. -/
def hwaccelStates (s : SupportFlags) (o : String) : List SupportFlags :=
  let s1 := { s with cuda := containsStr o "cuda" }
  let s2 := { s1 with opencl := containsStr o "opencl" }
  let s3 := { s2 with dxva2 := containsStr o "dxva2" }
  let s4 := { s3 with d3d11va := containsStr o "d3d11va" }
  [s1, s2, s3, s4]

/-- The two encoder assignments performed in source order on a successful
`-encoders` call (gpu_detector.py:256-269); `o` is the already-lowercased
stdout. -/
def encoderStates (s : SupportFlags) (o : String) : List SupportFlags :=
  let nv := containsStr o "h264_nvenc" || containsStr o "hevc_nvenc" || containsStr o "av1_nvenc"
  let am := containsStr o "h264_amf" || containsStr o "hevc_amf" || containsStr o "av1_amf"
  let s1 := { s with nvenc := nv }
  let s2 := { s1 with amf := am }
  [s1, s2]

/-- Last element of a state trace (the traces built below are never empty;
the default covers the impossible `[]` case). -/
def lastState (s0 : SupportFlags) (l : List SupportFlags) : SupportFlags :=
  l.getLastD s0

/-- Successive values taken by the one `ffmpeg_gpu_support` dict during a
call of `GPUDetector.check_ffmpeg_gpu_support` (gpu_detector.py:213-274).
The dict is updated in place, key by key, inside a single `try` block:

  * an empty `ffmpeg_path` returns immediately (line 223-224);
  * an exception in the first `subprocess.run` aborts the `try` before any
    assignment (caught at line 271);
  * a non-zero exit of a call skips that call's assignments;
  * an exception in the second `subprocess.run` is caught after the
    hardware-accelerator flags were already reassigned, leaving the
    mapping permanently mixed.

The head of the list is the mapping's value on entry; every later element
is a value the mapping holds at some point during the call — all of them
visible to any reader sharing the dict (e.g. via `get_gpu_summary`,
gpu_detector.py:333-353, which returns this very object). -/
def checkSupportStates (s0 : SupportFlags) (path : String) (hw enc : ProcResult) :
    List SupportFlags :=
  if path = "" then [s0]
  else
    match hw, enc with
    | .exn, _ => [s0]
    | .fail, .exn => [s0]
    | .fail, .fail => [s0]
    | .fail, .ok o2 => s0 :: encoderStates s0 (pyLower o2)
    | .ok o1, .exn => s0 :: hwaccelStates s0 (pyLower o1)
    | .ok o1, .fail => s0 :: hwaccelStates s0 (pyLower o1)
    | .ok o1, .ok o2 =>
      let hwTrace := hwaccelStates s0 (pyLower o1)
      let s4 := lastState s0 hwTrace
      (s0 :: hwTrace) ++ encoderStates s4 (pyLower o2)

/-- Final value of the support mapping after `check_ffmpeg_gpu_support`. -/
def check_ffmpeg_gpu_support (s0 : SupportFlags) (path : String) (hw enc : ProcResult) :
    SupportFlags :=
  lastState s0 (checkSupportStates s0 path hw enc)

/-- Translation of `GPUDetector.get_gpu_acceleration_args`
(gpu_detector.py:295-313): the detector's support flags and platform
string decide the decode-acceleration hint.  Note the signature: the
method accepts exactly one argument besides `self`. -/
def get_gpu_acceleration_args (support : SupportFlags) (system : String) (mode : String) :
    List String :=
  if mode = "cuda" ∧ support.cuda then ["-hwaccel", "cuda"]
  else if mode = "amd" then
    if support.opencl then ["-hwaccel", "opencl"]
    else if system = "windows" ∧ support.d3d11va then ["-hwaccel", "d3d11va"]
    else []
  else []

/-- Translation of `GPUDetector.get_gpu_encoder` (gpu_detector.py:315-331):
`None` means the caller falls back to the software encoder. -/
def get_gpu_encoder (support : SupportFlags) (mode : String) (codec : String) :
    Option String :=
  if mode = "cuda" ∧ support.nvenc then some (codec ++ "_nvenc")
  else if mode = "amd" ∧ support.amf then some (codec ++ "_amf")
  else none

/-! ## `src/core/ffmpeg_manager.py` -/

/-- Python exceptions surfaced by the translated code paths. -/
inductive PyError where
  | valueError (msg : String)
  | typeError (msg : String)
  deriving DecidableEq, Repr

/-- The state of an `FFmpegManager` relevant to command building
(ffmpeg_manager.py:17-25): its path/validity and the embedded
`GPUDetector`'s support flags and platform string. -/
structure FFmpegManagerState where
  ffmpeg_path : String
  is_valid : Bool
  support : SupportFlags
  system : String
  deriving Repr

/-- Translation of `FFmpegManager._color_to_hex` (ffmpeg_manager.py:452-472):
an eight-entry palette looked up on the lowercased name, with `"FFFFFF"`
as the `dict.get` default. -/
def color_to_hex (color_name : String) : String :=
  let k := pyLower color_name
  if k = "white" then "FFFFFF"
  else if k = "black" then "000000"
  else if k = "red" then "FF0000"
  else if k = "green" then "00FF00"
  else if k = "blue" then "0000FF"
  else if k = "yellow" then "FFFF00"
  else if k = "cyan" then "00FFFF"
  else if k = "magenta" then "FF00FF"
  else "FFFFFF"

/-- Six uppercase-hexadecimal digits, the shape every palette value has. -/
def isHex6 (s : String) : Bool :=
  s.data.length = 6 && s.data.all (fun c => c.isDigit || ('A' ≤ c && c ≤ 'F'))

/-- One alternative of the hour group `([0-1]?[0-9]|2[0-3])` of the
`validate_time_format` regex (ffmpeg_manager.py:510): given the input
suffix, return the list of suffixes remaining after each way the group
can match (greedy option first, then the second alternative). -/
def groupAltHours (l : List Char) : List (List Char) :=
  (match l with
   | a :: b :: r =>
     (if ('0' ≤ a ∧ a ≤ '1') ∧ b.isDigit then [r] else []) ++
       (if a.isDigit then [b :: r] else [])
   | [a] => if a.isDigit then [[]] else []
   | [] => []) ++
  (match l with
   | a :: b :: r => if a = '2' ∧ ('0' ≤ b ∧ b ≤ '3') then [r] else []
   | _ => [])

/-- The minute/second group `[0-5]?[0-9]` of the same regex: suffixes
remaining after each way the group can match. -/
def groupAltMS (l : List Char) : List (List Char) :=
  match l with
  | a :: b :: r =>
    (if ('0' ≤ a ∧ a ≤ '5') ∧ b.isDigit then [r] else []) ++
      (if a.isDigit then [b :: r] else [])
  | [a] => if a.isDigit then [[]] else []
  | [] => []

/-- Translation of `FFmpegManager.validate_time_format`
(ffmpeg_manager.py:500-511): full anchored match of
`^([0-1]?[0-9]|2[0-3]):([0-5]?[0-9]):([0-5]?[0-9])$`, with the regex
engine's backtracking modelled by trying every way each group can match. -/
def validate_time_format (time_str : String) : Bool :=
  (groupAltHours time_str.data).any fun r1 =>
    match r1 with
    | ':' :: r2 =>
      (groupAltMS r2).any fun r3 =>
        match r3 with
        | ':' :: r4 => (groupAltMS r4).any fun r5 => r5.isEmpty
        | _ => false
    | _ => false

/-- Translation of `FFmpegManager.time_to_seconds` (ffmpeg_manager.py:513-531):
raises `ValueError` on a string rejected by `validate_time_format`,
otherwise splits on `':'` and combines the integer parts.  The `[_, _]`
fallback is unreachable (a validated string always has three parts). -/
def time_to_seconds (time_str : String) : Except PyError Nat :=
  if validate_time_format time_str then
    match splitOnCharL ':' time_str.data with
    | h :: m :: s :: _ => .ok (natOfDigits h * 3600 + natOfDigits m * 60 + natOfDigits s)
    | _ => .ok 0
  else
    .error (.valueError ("无效的时间格式: " ++ time_str))

/-- The message of the `TypeError` raised by the call at
ffmpeg_manager.py:330: `build_cut_command` invokes
`self.gpu_detector.get_gpu_acceleration_args(gpu_mode, advanced=True)`,
but the method (gpu_detector.py:295) accepts only `mode`, so CPython
rejects the unexpected keyword argument at call time. -/
def advancedKwMsg : String :=
  "get_gpu_acceleration_args() got an unexpected keyword argument 'advanced'"

/-- Translation of `FFmpegManager.build_cut_command`
(ffmpeg_manager.py:303-358).  Line 324 raises `ValueError` when the
binary is unset/unverified.  Otherwise line 330 calls
`get_gpu_acceleration_args(gpu_mode, advanced=True)`, which raises
`TypeError` (see `advancedKwMsg`) on every invocation, so lines 332-358 —
the `-ss`/`-to` pair, `-i`, encoder selection, quality flags, `-c:a copy`
and the output path — are unreachable and the function never returns an
argument sequence. -/
def build_cut_command (m : FFmpegManagerState)
    (input_file output_file start_time end_time gpu_mode quality : String) :
    Except PyError (List String) :=
  if ¬ m.is_valid then .error (.valueError "FFmpeg路径无效")
  else .error (.typeError advancedKwMsg)

/-! ## Pure validation core of the GUI caller -/

/-! ## `src/core/video_processor.py` -/

/-- Translation of the `ProcessStatus` enumeration (video_processor.py:14-20). -/
inductive ProcessStatus where
  | IDLE
  | RUNNING
  | COMPLETED
  | ERROR
  | CANCELLED
  deriving DecidableEq, Repr

/-- Translation of the `ProcessProgress` dataclass (video_processor.py:23-34)
with its field defaults. -/
structure ProcessProgress where
  percentage : ℚ
  time_processed : String
  speed : String
  bitrate : String
  fps : ℚ
  eta : String
  current_frame : Nat
  total_frames : Nat
  deriving DecidableEq, Repr

/-- The record `ProcessProgress()` built from the dataclass defaults
(video_processor.py:26-33). -/
def initProgress : ProcessProgress :=
  { percentage := 0
    time_processed := "00:00:00"
    speed := "0x"
    bitrate := "0 kbits/s"
    fps := 0
    eta := "unknown"
    current_frame := 0
    total_frames := 0 }

/-- Error keywords of `_parse_progress_line` (video_processor.py:184). -/
def errorKeywords : List String :=
  ["error", "failed", "invalid", "could not"]

/-- Progress markers of `_parse_progress_line` (video_processor.py:193). -/
def progressMarkers : List String :=
  ["frame=", "time=", "size=", "bitrate="]

/-- Occurrence of any pattern of the list in the haystack, the model of
`any(k in hay for k in pats)`. -/
def hasAnyKeyword (hay : String) (pats : List String) : Bool :=
  pats.any (containsStr hay)

/-- Matcher for the tail of the pattern
`time=(\d{1,2}:\d{2}:\d{2}(?:\.\d{2})?)` (video_processor.py:201) right
after the literal `time=`: a greedy one-or-two digit hour, `:MM:SS`, and
an optional greedy `.ff`; returns the captured group.  The `{1,2}`
quantifier first tries two digits and falls back to one, exactly like the
backtracking engine. -/
def timeRestCore (hs : List Char) (r : List Char) : Option (List Char) :=
  match r with
  | c1 :: m1 :: m2 :: c2 :: s1 :: s2 :: rest =>
    if c1 = ':' ∧ m1.isDigit ∧ m2.isDigit ∧ c2 = ':' ∧ s1.isDigit ∧ s2.isDigit then
      let base := hs ++ [c1, m1, m2, c2, s1, s2]
      match rest with
      | '.' :: f1 :: f2 :: _ =>
        if f1.isDigit ∧ f2.isDigit then some (base ++ ['.', f1, f2]) else some base
      | _ => some base
    else none
  | _ => none

/-- Hour-digit dispatch of the same pattern: the greedy `\d{1,2}` tries
two digits first and backtracks to one. -/
def timeTailCore (l : List Char) : Option (List Char) :=
  match l with
  | [] => none
  | d1 :: rest1 =>
    if d1.isDigit then
      match rest1 with
      | d2 :: rest2 =>
        if d2.isDigit then
          match timeRestCore [d1, d2] rest2 with
          | some g => some g
          | none => timeRestCore [d1] rest1
        else timeRestCore [d1] rest1
      | [] => none
    else none

/-- Model of `re.search(r'time=(…)', line).group(1)` (video_processor.py:201). -/
def searchTime (line : String) : Option (List Char) :=
  scanOpt (fun l => (stripPre "time=".data l).bind timeTailCore) line.data

/-- Matcher for `speed=\s*([0-9.]+)x` after the literal `speed=`
(video_processor.py:212).  `\s*` is greedy and no backtracking into it
can help, because `[0-9.]` and `x` do not match whitespace; likewise the
maximal `[0-9.]`-run is the only candidate because `x` is outside the
class. -/
def speedTailCore (l : List Char) : Option (List Char) :=
  let r := l.dropWhile pyIsSpace
  let run := r.takeWhile numDot
  let rest := r.dropWhile numDot
  if run.isEmpty then none
  else
    match rest with
    | 'x' :: _ => some run
    | _ => none

/-- Model of `re.search(r'speed=\s*([0-9.]+)x', line).group(1)`. -/
def searchSpeed (line : String) : Option (List Char) :=
  scanOpt (fun l => (stripPre "speed=".data l).bind speedTailCore) line.data

/-- Matcher for `bitrate=\s*([0-9.]+)(k?bits/s)` after the literal
`bitrate=` (video_processor.py:217); `k?` is greedy, so `kbits/s` is
preferred over `bits/s`. -/
def bitrateTailCore (l : List Char) : Option (List Char × String) :=
  let r := l.dropWhile pyIsSpace
  let run := r.takeWhile numDot
  let rest := r.dropWhile numDot
  if run.isEmpty then none
  else if "kbits/s".data.isPrefixOf rest then some (run, "kbits/s")
  else if "bits/s".data.isPrefixOf rest then some (run, "bits/s")
  else none

/-- Model of the bitrate search: captured value and unit groups. -/
def searchBitrate (line : String) : Option (List Char × String) :=
  scanOpt (fun l => (stripPre "bitrate=".data l).bind bitrateTailCore) line.data

/-- Matcher for `fps=\s*([0-9.]+)` after the literal `fps=`
(video_processor.py:224). -/
def fpsTailCore (l : List Char) : Option (List Char) :=
  let r := l.dropWhile pyIsSpace
  let run := r.takeWhile numDot
  if run.isEmpty then none else some run

/-- Model of `re.search(r'fps=\s*([0-9.]+)', line).group(1)`. -/
def searchFps (line : String) : Option (List Char) :=
  scanOpt (fun l => (stripPre "fps=".data l).bind fpsTailCore) line.data

/-- Matcher for `frame=\s*(\d+)` after the literal `frame=`
(video_processor.py:232). -/
def frameTailCore (l : List Char) : Option (List Char) :=
  let r := l.dropWhile pyIsSpace
  let run := r.takeWhile Char.isDigit
  if run.isEmpty then none else some run

/-- Model of `re.search(r'frame=\s*(\d+)', line).group(1)`. -/
def searchFrame (line : String) : Option (List Char) :=
  scanOpt (fun l => (stripPre "frame=".data l).bind frameTailCore) line.data

/-- Time-processed update (video_processor.py:196-206): skipped entirely
when the line contains `time=N/A`; otherwise a successful search stores
the captured timestamp, appending `.00` when it has no dot. -/
def updTime (p : ProcessProgress) (line : String) : ProcessProgress :=
  if containsStr line "time=N/A" then p
  else
    match searchTime line with
    | some t =>
      let ts := if t.contains '.' then t else t ++ ['.', '0', '0']
      { p with time_processed := String.mk ts }
    | none => p

/-- Speed update (video_processor.py:208-214): `speed=N/A` stores the
literal `"N/A"`, otherwise a successful search stores `<value>x`. -/
def updSpeed (p : ProcessProgress) (line : String) : ProcessProgress :=
  if containsStr line "speed=N/A" then { p with speed := "N/A" }
  else
    match searchSpeed line with
    | some v => { p with speed := String.mk v ++ "x" }
    | none => p

/-- Bitrate update (video_processor.py:216-221): value and unit joined by
a space. -/
def updBitrate (p : ProcessProgress) (line : String) : ProcessProgress :=
  match searchBitrate line with
  | some vu => { p with bitrate := String.mk vu.1 ++ " " ++ vu.2 }
  | none => p

/-- Fps update (video_processor.py:223-229): stored only when `float()`
accepts the capture; a `ValueError` is swallowed. -/
def updFps (p : ProcessProgress) (line : String) : ProcessProgress :=
  match searchFps line with
  | some v =>
    match pyFloat v with
    | some q => { p with fps := q }
    | none => p
  | none => p

/-- Current-frame update (video_processor.py:231-237): the `\d+` capture
always converts. -/
def updFrame (p : ProcessProgress) (line : String) : ProcessProgress :=
  match searchFrame line with
  | some d => { p with current_frame := natOfDigits d }
  | none => p

/-- Model of Python `s.replace("x", "")`: every `x` is removed. -/
def stripX (s : String) : List Char :=
  s.data.filter (fun c => c ≠ 'x')

/-- Translation of `VideoProcessor._time_to_seconds`
(video_processor.py:267-284): split on `':'`, convert the first three
parts with `float()`, and return `0.0` on any conversion or index
error. -/
def vp_time_to_seconds (s : String) : ℚ :=
  match splitOnCharL ':' s.data with
  | h :: m :: sec :: _ =>
    match pyFloat h, pyFloat m, pyFloat sec with
    | some hv, some mv, some sv => hv * 3600 + mv * 60 + sv
    | _, _, _ => 0
  | _ => 0

/-- Translation of `VideoProcessor._seconds_to_time`
(video_processor.py:286-299): Python `//` and `%` are floor division and
floor modulus, and each component is rendered with `f"{…:02d}"`. -/
def seconds_to_time (seconds : Int) : String :=
  fmt02 (seconds.fdiv 3600) ++ ":" ++ fmt02 ((seconds.fmod 3600).fdiv 60) ++ ":" ++
    fmt02 (seconds.fmod 60)

/-- Translation of the percentage/ETA derivation block of
`_parse_progress_line` (video_processor.py:239-256), applied to the
record after field extraction.  `totalDur` is `none` when the
`_total_duration_seconds` attribute was never set (`hasattr` fails).  The
ETA assignment happens only when the freshly assigned percentage is
positive, the speed string is non-empty, `float()` accepts it with every
`x` removed, and the value is positive (`ValueError`/`ZeroDivisionError`
are swallowed, leaving the previous ETA). -/
def derive_percentage_eta (p : ProcessProgress) (totalDur : Option ℚ) : ProcessProgress :=
  match totalDur with
  | none => p
  | some total =>
    if 0 < total ∧ p.time_processed ≠ "" then
      let cur := vp_time_to_seconds p.time_processed
      if 0 < cur then
        let p1 := { p with percentage := min 100 (cur / total * 100) }
        if 0 < p1.percentage ∧ p1.speed ≠ "" then
          match pyFloat (stripX p1.speed) with
          | some sv =>
            if 0 < sv then
              { p1 with eta := seconds_to_time (pyTrunc ((total - cur) / sv)) }
            else p1
          | none => p1
        else p1
      else p
    else p

/-- Result of feeding one diagnostic line to
`VideoProcessor._parse_progress_line`: the updated progress record, the
updated `error_message`, and whether the progress callback fires
(assuming one is registered — video_processor.py:259). -/
structure ParseResult where
  progress : ProcessProgress
  error_message : String
  notified : Bool
  deriving DecidableEq, Repr

/-- Translation of `VideoProcessor._parse_progress_line`
(video_processor.py:175-265).  In source order: the error-keyword check
on the lowercased line captures the first such line verbatim and returns
(lines 183-187); lines without any progress marker are ignored (line
193); otherwise the time/speed/bitrate/fps/frame fields are extracted,
the percentage/ETA block runs, and the progress callback fires exactly
when the accumulated record has a truthy `time_processed` or a positive
`current_frame` (lines 258-261). -/
def parse_progress_line (p : ProcessProgress) (err : String) (totalDur : Option ℚ)
    (line : String) : ParseResult :=
  if hasAnyKeyword (pyLower line) errorKeywords then
    ⟨p, if err = "" then line else err, false⟩
  else if ¬ hasAnyKeyword line progressMarkers then
    ⟨p, err, false⟩
  else
    let p1 := updTime p line
    let p2 := updSpeed p1 line
    let p3 := updBitrate p2 line
    let p4 := updFps p3 line
    let p5 := updFrame p4 line
    let p6 := derive_percentage_eta p5 totalDur
    ⟨p6, err, p6.time_processed ≠ "" || 0 < p6.current_frame⟩

/-! ## Supervisor lifecycle (`VideoProcessor` state machine) -/

/-- Observable notifications delivered to the two subscriber callbacks. -/
inductive Event where
  | statusNotify (st : ProcessStatus) (msg : String)
  | progressNotify (p : ProcessProgress)
  deriving DecidableEq, Repr

/-- The mutable state of a `VideoProcessor` instance relevant to the
lifecycle claims (video_processor.py:39-48), with both callbacks assumed
registered. -/
structure VPState where
  status : ProcessStatus
  progress : ProcessProgress
  error_message : String
  current_task : String
  total_duration : Option ℚ
  stop_event : Bool
  deriving DecidableEq, Repr

/-- Translation of `VideoProcessor.stop_process`
(video_processor.py:347-368), which runs synchronously on the caller's
thread: a non-`RUNNING` instance is a no-op returning `False`; otherwise
the stop event is set, the status is reassigned to `CANCELLED`, and the
status callback fires — all before the function returns.  Result:
(state after the call, events it emitted, return value). -/
def stop_process (s : VPState) : VPState × List Event × Bool :=
  if s.status ≠ ProcessStatus.RUNNING then (s, [], false)
  else
    let s1 := { s with stop_event := true, status := ProcessStatus.CANCELLED }
    (s1, [.statusNotify ProcessStatus.CANCELLED (s.current_task ++ "已取消")], true)

/-- Translation of the post-loop tail of `VideoProcessor._monitor_progress`
(video_processor.py:148-167), entered once the monitoring loop stops
(process exit, or the stop event observed).  When the stop event is not
set, exit code `0` moves to `COMPLETED` with percentage forced to 100 and
a non-zero code moves to `ERROR` (with a fallback reason), each firing
the status callback; in every case the single final progress callback
fires last. -/
def monitorTail (s : VPState) (returnCode : Int) : VPState × List Event :=
  if s.stop_event then
    (s, [.progressNotify s.progress])
  else if returnCode = 0 then
    let s1 := { s with status := ProcessStatus.COMPLETED
                       progress := { s.progress with percentage := 100 } }
    (s1, [.statusNotify ProcessStatus.COMPLETED (s.current_task ++ "完成"),
          .progressNotify s1.progress])
  else
    let reason := if s.error_message = ""
      then "FFmpeg进程退出，返回码: " ++ intStr returnCode
      else s.error_message
    let s1 := { s with status := ProcessStatus.ERROR, error_message := reason }
    (s1, [.statusNotify ProcessStatus.ERROR (s.current_task ++ "失败: " ++ reason),
          .progressNotify s1.progress])

/-- One parsed stderr line inside the monitoring loop
(video_processor.py:134-139 with 258-261): the state absorbs the parse
result and a progress notification is emitted when the parse fired the
callback. -/
def processLine (s : VPState) (line : String) : VPState × List Event :=
  let r := parse_progress_line s.progress s.error_message s.total_duration line
  ({ s with progress := r.progress, error_message := r.error_message },
   if r.notified then [.progressNotify r.progress] else [])

/-- The monitoring loop over a list of stderr lines followed by the
post-loop tail: the full observable behaviour of `_monitor_progress` for
a run that reads `lines` and then sees the process exit with
`returnCode`. -/
def monitorRun (s : VPState) (lines : List String) (returnCode : Int) :
    VPState × List Event :=
  match lines with
  | [] => monitorTail s returnCode
  | l :: rest =>
    let (s1, e1) := processLine s l
    let (s2, e2) := monitorRun s1 rest returnCode
    (s2, e1 ++ e2)

/-- Observable event sequence of a cancellation: the caller invokes
`stop_process` while the monitor thread is between reads (it is sleeping
in `time.sleep(0.1)`, video_processor.py:146 — a legal and typical
interleaving); the monitor then observes the stop event, breaks out of
the loop, and delivers its final progress notification.  The caller-side
events therefore precede the monitor's final notification. -/
def cancelScenario (s : VPState) (returnCode : Int) : VPState × List Event :=
  let r1 := stop_process s
  let r2 := monitorTail r1.1 returnCode
  (r2.1, r1.2.1 ++ r2.2)

/-- The time-ordering gate of `MainWindow._validate_inputs`
(main_window.py:577-583): both entered times are converted through
`FFmpegManager.time_to_seconds` and the request is rejected (`False`)
when `start_seconds >= end_seconds`; on `start < end` this part of the
validation passes (`True`).  `time_to_seconds` can itself raise. -/
def cut_time_order_gate (startTime endTime : String) : Except PyError Bool := do
  let a ← time_to_seconds startTime
  let b ← time_to_seconds endTime
  pure (decide (a < b))

/-- Two-digit zero-padded decimal rendering (`str(n).zfill(2)` for values
below 100), the canonical `HH`/`MM`/`SS` component shape produced by the
GUI time widgets (widgets.py:221-226). -/
def twoDigits (n : Nat) : List Char :=
  [digitChar (n / 10), digitChar (n % 10)]

/-- Canonical `HH:MM:SS` rendering of an hour/minute/second triple. -/
def renderHMS (h m s : Nat) : String :=
  String.mk (twoDigits h ++ ':' :: (twoDigits m ++ ':' :: twoDigits s))

end FFmpegImp

deriving instance DecidableEq for Except

namespace FFmpegImp

/-! ## Theorems -/

/-- C10: color-name resolution is a total function: every input string
yields a six-hex-digit value; `"white"` maps to `"FFFFFF"`, `"RED"` maps
to `"FF0000"` (matching is case-insensitive), and every unrecognized name
such as `"chartreuse"` falls back to `"FFFFFF"` without erroring. -/
theorem color_to_hex_total :
    (∀ s : String, isHex6 (color_to_hex s) = true) ∧
    color_to_hex "white" = "FFFFFF" ∧
    color_to_hex "RED" = "FF0000" ∧
    color_to_hex "chartreuse" = "FFFFFF" := by
  refine ⟨fun s => ?_, by decide, by decide, by decide⟩
  simp only [color_to_hex]
  generalize pyLower s = k
  repeat' split
  all_goals decide

/-- C6 counterexample: `validate_time_format` anchors the hour group to
`[0-1]?[0-9]|2[0-3]`, so the timestamp `24:00:00` — which the claim says
is accepted (hours unbounded, "e.g. 24 or more") — is rejected, and
`time_to_seconds` raises `ValueError` on it instead of returning
`24*3600`. -/
theorem hours_24_rejected :
    validate_time_format "24:00:00" = false ∧
    time_to_seconds "24:00:00" =
      .error (.valueError "无效的时间格式: 24:00:00") := by
  exact ⟨by decide, by decide⟩

/-- C1 (code-bug evidence): with a set and verified binary path and a
valid time range `00:00:10 < 00:00:20`, `build_cut_command` does not
return an argument sequence at all: the call
`get_gpu_acceleration_args(gpu_mode, advanced=True)` at
ffmpeg_manager.py:330 passes a keyword argument that the method
(gpu_detector.py:295) does not accept, so every invocation raises
`TypeError` before the `-ss`/`-to`/`-i` arguments are assembled. -/
theorem build_cut_command_always_raises :
    build_cut_command ⟨"/usr/bin/ffmpeg", true, initSupport, "linux"⟩
      "a.mp4" "out.mp4" "00:00:10" "00:00:20" "cpu" "medium" =
    .error (.typeError advancedKwMsg) := by
  decide

/-- C2 counterexample: for a request with `start = 00:00:20 ≥ end =
00:00:10` and a verified binary, `build_cut_command` contains no
time-ordering check at all; it fails with the `TypeError` of the
mis-called GPU-args helper, not with the `ValueError` that models
`InvalidRequest` in this code base (the error `build_cut_command` uses
for an invalid request, ffmpeg_manager.py:325). -/
theorem start_ge_end_not_invalid_request :
    build_cut_command ⟨"/opt/bin/ffmpeg", true, initSupport, "windows"⟩
      "b.mp4" "o.mp4" "00:00:20" "00:00:10" "cpu" "low" =
      .error (.typeError advancedKwMsg) ∧
    build_cut_command ⟨"/opt/bin/ffmpeg", true, initSupport, "windows"⟩
      "b.mp4" "o.mp4" "00:00:20" "00:00:10" "cpu" "low" ≠
      .error (.valueError "FFmpeg路径无效") := by
  exact ⟨by decide, by decide⟩

/-- C2 amended: `build_cut_command` performs no time-ordering validation —
with a verified binary it fails identically for every input (currently
with the `advanced=True` `TypeError`); the `start ≥ end` rejection is
enforced by the GUI caller before `build_cut_command` is invoked, via the
`time_to_seconds` comparison of `MainWindow._validate_inputs`
(main_window.py:577-583), which returns `False` for such requests. -/
theorem start_ge_end_rejected_by_caller (m : FFmpegManagerState)
    (i o st en gm q : String) (a b : Nat)
    (hm : m.is_valid = true)
    (ha : time_to_seconds st = .ok a) (hb : time_to_seconds en = .ok b)
    (hba : b ≤ a) :
    build_cut_command m i o st en gm q = .error (.typeError advancedKwMsg) ∧
    cut_time_order_gate st en = .ok false := by
  constructor
  · simp [build_cut_command, hm]
  · simp only [cut_time_order_gate, bind, Except.bind, ha, hb, pure, Except.pure]
    simp [Nat.not_lt.2 hba]

/-- Closed witness for the C2 amended theorem at `start = 00:00:20`,
`end = 00:00:10`. -/
theorem start_ge_end_rejected_by_caller_witness :
    (⟨"/usr/bin/ffmpeg", true, initSupport, "linux"⟩ : FFmpegManagerState).is_valid = true ∧
    time_to_seconds "00:00:20" = .ok 20 ∧
    time_to_seconds "00:00:10" = .ok 10 ∧ (10 : Nat) ≤ 20 ∧
    (build_cut_command ⟨"/usr/bin/ffmpeg", true, initSupport, "linux"⟩
        "a.mp4" "out.mp4" "00:00:20" "00:00:10" "cuda" "high" =
      .error (.typeError advancedKwMsg) ∧
     cut_time_order_gate "00:00:20" "00:00:10" = .ok false) := by
  refine ⟨by decide, by decide, by decide, by decide, ?_⟩
  exact start_ge_end_rejected_by_caller _ "a.mp4" "out.mp4" "00:00:20" "00:00:10"
    "cuda" "high" 20 10 (by decide) (by decide) (by decide) (by decide)

/-- C7 (code-bug evidence): for an `accelMode = cuda` request against a
snapshot with `nvenc = false`, the encoder-resolution helper
`get_gpu_encoder` indeed returns `None` (which would select the software
encoder `libx264` at ffmpeg_manager.py:344-345), but no built sequence
ever exists: `build_cut_command` raises the `advanced=True` `TypeError`
before reaching the encoder-selection step. -/
theorem cuda_without_nvenc_no_sequence :
    get_gpu_encoder initSupport "cuda" "h264" = none ∧
    get_gpu_encoder { initSupport with cuda := true } "cuda" "h264" = none ∧
    build_cut_command ⟨"/usr/bin/ffmpeg", true, { initSupport with cuda := true }, "windows"⟩
      "in.mp4" "o.mp4" "00:00:00" "00:01:00" "cuda" "high" =
      .error (.typeError advancedKwMsg) := by
  exact ⟨by decide, by decide, by decide⟩

/-- C9: a diagnostic line containing one of the error keywords (`error`,
`failed`, `invalid`, `could not`, case-insensitive) is captured verbatim
as the failure reason when none is recorded yet, no progress fields are
extracted from it (the record is returned unchanged), no progress
notification fires, and when a reason is already recorded the line does
not overwrite it. -/
theorem error_line_captured_once (p : ProcessProgress) (err : String)
    (t : Option ℚ) (line : String)
    (h : hasAnyKeyword (pyLower line) errorKeywords = true) :
    parse_progress_line p err t line =
      ⟨p, if err = "" then line else err, false⟩ := by
  simp [parse_progress_line, h]

/-- Closed witness for C9: the first error line is captured verbatim and
a second, different error line does not overwrite it. -/
theorem error_line_captured_once_witness :
    hasAnyKeyword (pyLower "Error: Invalid data found") errorKeywords = true ∧
    parse_progress_line initProgress "" none "Error: Invalid data found" =
      ⟨initProgress, "Error: Invalid data found", false⟩ ∧
    parse_progress_line initProgress "Error: Invalid data found" none
        "Could not open file: x.mp4" =
      ⟨initProgress, "Error: Invalid data found", false⟩ := by
  refine ⟨by decide, ?_, ?_⟩
  · exact error_line_captured_once initProgress "" none "Error: Invalid data found" (by decide)
  · exact error_line_captured_once initProgress "Error: Invalid data found" none
      "Could not open file: x.mp4" (by decide)

/-- C5 counterexample: the line `bitrate= 128.0kbits/s` carries a
progress marker but no time marker and no frame count; it updates only
the bitrate field (time stays at its previous `00:00:00`, the frame count
stays `0`), yet the progress callback fires, because the trigger
condition (video_processor.py:259-260) tests the accumulated record's
`time_processed` — initialized to the non-empty `"00:00:00"` and never
cleared — rather than what this line produced. -/
theorem bitrate_only_line_notifies :
    searchTime "bitrate= 128.0kbits/s" = none ∧
    searchFrame "bitrate= 128.0kbits/s" = none ∧
    (parse_progress_line initProgress "" none "bitrate= 128.0kbits/s").progress.time_processed
      = "00:00:00" ∧
    (parse_progress_line initProgress "" none "bitrate= 128.0kbits/s").progress.current_frame
      = 0 ∧
    (parse_progress_line initProgress "" none "bitrate= 128.0kbits/s").progress.bitrate
      = "128.0 kbits/s" ∧
    (parse_progress_line initProgress "" none "bitrate= 128.0kbits/s").notified = true := by
  exact ⟨by decide, by decide, by decide, by decide, by decide, by decide⟩

theorem timeRestCore_ne_nil {hs r : List Char} {g : List Char}
    (h : timeRestCore hs r = some g) : g ≠ [] := by
  simp only [timeRestCore] at h
  split at h
  · split at h
    · split at h
      · split at h
        · cases h; simp
        · cases h; simp
      · cases h; simp
    · cases h
  · cases h

theorem timeTailCore_ne_nil {l : List Char} {g : List Char}
    (h : timeTailCore l = some g) : g ≠ [] := by
  simp only [timeTailCore] at h
  split at h
  · cases h
  · split at h
    · split at h
      · split at h
        · split at h
          · next heq => cases h; exact timeRestCore_ne_nil heq
          · exact timeRestCore_ne_nil h
        · exact timeRestCore_ne_nil h
      · cases h
    · cases h

theorem scanOpt_some {α : Type} {f : List Char → Option α} {v : α} :
    ∀ {l : List Char}, scanOpt f l = some v → ∃ l', f l' = some v := by
  intro l
  induction l with
  | nil => exact fun h => ⟨[], h⟩
  | cons c r ih =>
    intro h
    simp only [scanOpt] at h
    split at h
    · next heq => cases h; exact ⟨c :: r, heq⟩
    · exact ih h

theorem searchTime_ne_nil {line : String} {t : List Char}
    (h : searchTime line = some t) : t ≠ [] := by
  obtain ⟨l', hl⟩ := scanOpt_some h
  simp only [stripPre] at hl
  split at hl
  · simp only [Option.some_bind] at hl
    exact timeTailCore_ne_nil hl
  · simp at hl

theorem updTime_keeps_nonempty {p : ProcessProgress} {line : String}
    (h : p.time_processed ≠ "") : (updTime p line).time_processed ≠ "" := by
  unfold updTime
  split
  · exact h
  · split
    · next t heq =>
      have ht := searchTime_ne_nil heq
      intro he
      have hd : (if t.contains '.' = true then t else t ++ ['.', '0', '0']) = [] :=
        congrArg String.data he
      by_cases hc : t.contains '.' = true
      · rw [if_pos hc] at hd
        exact ht hd
      · rw [if_neg hc] at hd
        simp at hd
    · exact h

theorem updSpeed_time_processed (p : ProcessProgress) (line : String) :
    (updSpeed p line).time_processed = p.time_processed := by
  unfold updSpeed
  split
  · rfl
  · split <;> rfl

theorem updBitrate_time_processed (p : ProcessProgress) (line : String) :
    (updBitrate p line).time_processed = p.time_processed := by
  unfold updBitrate
  split <;> rfl

theorem updFps_time_processed (p : ProcessProgress) (line : String) :
    (updFps p line).time_processed = p.time_processed := by
  unfold updFps
  split
  · split <;> rfl
  · rfl

theorem updFrame_time_processed (p : ProcessProgress) (line : String) :
    (updFrame p line).time_processed = p.time_processed := by
  unfold updFrame
  split <;> rfl

theorem derive_time_processed (p : ProcessProgress) (t : Option ℚ) :
    (derive_percentage_eta p t).time_processed = p.time_processed := by
  simp only [derive_percentage_eta]
  repeat' split
  all_goals rfl

/-- C5 amended: the progress callback is invoked for every line that
passes the error-keyword and progress-marker filters, regardless of
whether the line carried a time marker or frame count, because the
trigger condition (video_processor.py:259-260) tests the accumulated
record's `time_processed` — a field initialized to the non-empty
`"00:00:00"` and never cleared — so bitrate/fps/speed-only lines also
fire a notification. -/
theorem marker_line_always_notifies (p : ProcessProgress) (err : String)
    (t : Option ℚ) (line : String)
    (hkw : hasAnyKeyword (pyLower line) errorKeywords = false)
    (hmk : hasAnyKeyword line progressMarkers = true)
    (htp : p.time_processed ≠ "") :
    (parse_progress_line p err t line).notified = true := by
  simp only [parse_progress_line, hkw, hmk, Bool.false_eq_true, if_false,
    Bool.not_true, not_true_eq_false]
  have h1 : (derive_percentage_eta
      (updFrame (updFps (updBitrate (updSpeed (updTime p line) line) line) line) line)
      t).time_processed = (updTime p line).time_processed := by
    rw [derive_time_processed, updFrame_time_processed, updFps_time_processed,
      updBitrate_time_processed, updSpeed_time_processed]
  simp [h1, updTime_keeps_nonempty htp]

/-- Closed witness for the C5 amended theorem: an fps/size-only line (no
time marker, no frame count) still notifies. -/
theorem marker_line_always_notifies_witness :
    hasAnyKeyword (pyLower "fps= 25 size= 1024kB") errorKeywords = false ∧
    hasAnyKeyword "fps= 25 size= 1024kB" progressMarkers = true ∧
    initProgress.time_processed ≠ "" ∧
    (parse_progress_line initProgress "" none "fps= 25 size= 1024kB").notified = true := by
  refine ⟨by decide, by decide, by decide, ?_⟩
  exact marker_line_always_notifies initProgress "" none "fps= 25 size= 1024kB"
    (by decide) (by decide) (by decide)

theorem hoursCond1 : ∀ n : Fin 20,
    ('0' ≤ digitChar (n.val / 10) ∧ digitChar (n.val / 10) ≤ '1') ∧
      (digitChar (n.val % 10)).isDigit = true := by
  decide

theorem hoursCond2 : ∀ n : Fin 4,
    digitChar ((20 + n.val) / 10) = '2' ∧
      ('0' ≤ digitChar ((20 + n.val) % 10) ∧ digitChar ((20 + n.val) % 10) ≤ '3') := by
  decide

theorem msCond : ∀ n : Fin 60,
    ('0' ≤ digitChar (n.val / 10) ∧ digitChar (n.val / 10) ≤ '5') ∧
      (digitChar (n.val % 10)).isDigit = true := by
  decide

theorem mem_groupAltHours {n : Nat} (h : n < 24) (r : List Char) :
    r ∈ groupAltHours (twoDigits n ++ r) := by
  have hcons : twoDigits n ++ r = digitChar (n / 10) :: digitChar (n % 10) :: r := rfl
  rw [hcons]
  rcases Nat.lt_or_ge n 20 with h20 | h20
  · have hc := hoursCond1 ⟨n, h20⟩
    simp only [groupAltHours]
    refine List.mem_append.2 (.inl (List.mem_append.2 (.inl ?_)))
    rw [if_pos hc]
    exact List.mem_singleton_self r
  · have hk : n - 20 < 4 := by omega
    have hc := hoursCond2 ⟨n - 20, hk⟩
    have hn : 20 + (n - 20) = n := by omega
    rw [hn] at hc
    simp only [groupAltHours]
    refine List.mem_append.2 (.inr ?_)
    rw [if_pos hc]
    exact List.mem_singleton_self r

theorem mem_groupAltMS {n : Nat} (h : n < 60) (r : List Char) :
    r ∈ groupAltMS (twoDigits n ++ r) := by
  have hcons : twoDigits n ++ r = digitChar (n / 10) :: digitChar (n % 10) :: r := rfl
  rw [hcons]
  have hc := msCond ⟨n, h⟩
  simp only [groupAltMS]
  refine List.mem_append.2 (.inl ?_)
  rw [if_pos hc]
  exact List.mem_singleton_self r

theorem validate_time_format_renderHMS {hh mm ss : Nat}
    (h1 : hh < 24) (h2 : mm < 60) (h3 : ss < 60) :
    validate_time_format (renderHMS hh mm ss) = true := by
  unfold validate_time_format
  rw [List.any_eq_true]
  refine ⟨':' :: (twoDigits mm ++ ':' :: twoDigits ss), ?_, ?_⟩
  · exact mem_groupAltHours h1 _
  · show (groupAltMS (twoDigits mm ++ ':' :: twoDigits ss)).any _ = true
    rw [List.any_eq_true]
    refine ⟨':' :: twoDigits ss, mem_groupAltMS h2 _, ?_⟩
    show (groupAltMS (twoDigits ss)).any _ = true
    rw [List.any_eq_true]
    refine ⟨[], ?_, by decide⟩
    have := mem_groupAltMS h3 ([] : List Char)
    rwa [List.append_nil] at this

theorem digitChar_toNat {d : Nat} (h : d < 10) : (digitChar d).toNat = 48 + d := by
  have hfin : ∀ m : Fin 10, (digitChar m.val).toNat = 48 + m.val := by decide
  exact hfin ⟨d, h⟩

theorem natOfDigits_twoDigits {n : Nat} (h : n < 100) :
    natOfDigits (twoDigits n) = n := by
  have ha := digitChar_toNat (show n / 10 < 10 by omega)
  have hb := digitChar_toNat (show n % 10 < 10 by omega)
  simp only [twoDigits, natOfDigits, List.foldl]
  rw [ha, hb]
  omega

theorem splitOnCharL_renderHMS {hh mm ss : Nat}
    (h1 : hh < 24) (h2 : mm < 60) (h3 : ss < 60) :
    splitOnCharL ':' (renderHMS hh mm ss).data =
      [twoDigits hh, twoDigits mm, twoDigits ss] := by
  have hne : ∀ d : Fin 10, ¬ (digitChar d.val = ':') := by decide
  have e1 := hne ⟨hh / 10, by omega⟩
  have e2 := hne ⟨hh % 10, by omega⟩
  have e3 := hne ⟨mm / 10, by omega⟩
  have e4 := hne ⟨mm % 10, by omega⟩
  have e5 := hne ⟨ss / 10, by omega⟩
  have e6 := hne ⟨ss % 10, by omega⟩
  show splitOnCharL ':' (digitChar (hh / 10) :: digitChar (hh % 10) :: ':' ::
    digitChar (mm / 10) :: digitChar (mm % 10) :: ':' ::
    digitChar (ss / 10) :: digitChar (ss % 10) :: []) = _
  simp [splitOnCharL, e1, e2, e3, e4, e5, e6, twoDigits]

theorem time_to_seconds_renderHMS {hh mm ss : Nat}
    (h1 : hh < 24) (h2 : mm < 60) (h3 : ss < 60) :
    time_to_seconds (renderHMS hh mm ss) = .ok (hh * 3600 + mm * 60 + ss) := by
  unfold time_to_seconds
  rw [if_pos (validate_time_format_renderHMS h1 h2 h3),
    splitOnCharL_renderHMS h1 h2 h3]
  show Except.ok (natOfDigits (twoDigits hh) * 3600 + natOfDigits (twoDigits mm) * 60 +
    natOfDigits (twoDigits ss)) = _
  rw [natOfDigits_twoDigits (by omega), natOfDigits_twoDigits (by omega),
    natOfDigits_twoDigits (by omega)]

/-- C6 amended: `validate_time_format` accepts exactly the 24-hour-clock
range — its hour group is `[0-1]?[0-9]|2[0-3]` — so every `HH:MM:SS`
string with `0 ≤ hours ≤ 23` and `0 ≤ minutes, seconds < 60` is accepted
and converted by `time_to_seconds` to `hours*3600 + minutes*60 + seconds`
without raising; hours of magnitude 24 or more are rejected by the same
regex. -/
theorem bounded_hhmmss_accepted (hh mm ss : Nat)
    (h1 : hh < 24) (h2 : mm < 60) (h3 : ss < 60) :
    validate_time_format (renderHMS hh mm ss) = true ∧
    time_to_seconds (renderHMS hh mm ss) = .ok (hh * 3600 + mm * 60 + ss) :=
  ⟨validate_time_format_renderHMS h1 h2 h3, time_to_seconds_renderHMS h1 h2 h3⟩

/-- Closed witness for the C6 amended theorem at `23:59:59`. -/
theorem bounded_hhmmss_accepted_witness :
    renderHMS 23 59 59 = "23:59:59" ∧ 23 < 24 ∧ 59 < 60 ∧
    (validate_time_format (renderHMS 23 59 59) = true ∧
     time_to_seconds (renderHMS 23 59 59) = .ok (23 * 3600 + 59 * 60 + 59)) :=
  ⟨by decide, by decide, by decide,
    bounded_hhmmss_accepted 23 59 59 (by decide) (by decide) (by decide)⟩

/-- C4 counterexample: the `ffmpeg_gpu_support` mapping is not replaced
atomically by a probe — `check_ffmpeg_gpu_support` reassigns it key by
key in place, so with `-hwaccels` reporting `cuda` and `-encoders`
reporting `h264_nvenc` the shared mapping passes through the
intermediate value `{cuda := true, nvenc := false}`, which is neither the
pre-probe value (all false) nor the post-probe value
`{cuda := true, nvenc := true}`; and when the `-encoders` call raises,
that mixed value is even the final one.  A reader holding the mapping
(it is the very object returned by `check_ffmpeg_gpu_support` and
embedded by `get_gpu_summary`) therefore observes partial updates. -/
theorem snapshot_partial_update_observable :
    checkSupportStates initSupport "/usr/bin/ffmpeg" (.ok "cuda") (.ok "h264_nvenc") =
      [⟨false, false, false, false, false, false⟩,
       ⟨true, false, false, false, false, false⟩, ⟨true, false, false, false, false, false⟩,
       ⟨true, false, false, false, false, false⟩, ⟨true, false, false, false, false, false⟩,
       ⟨true, true, false, false, false, false⟩, ⟨true, true, false, false, false, false⟩] ∧
    (⟨true, false, false, false, false, false⟩ : SupportFlags) ≠ initSupport ∧
    (⟨true, false, false, false, false, false⟩ : SupportFlags) ≠
      check_ffmpeg_gpu_support initSupport "/usr/bin/ffmpeg" (.ok "cuda") (.ok "h264_nvenc") ∧
    check_ffmpeg_gpu_support initSupport "/usr/bin/ffmpeg" (.ok "cuda") .exn =
      ⟨true, false, false, false, false, false⟩ := by
  exact ⟨by decide, by decide, by decide, by decide⟩

/-- C4 amended: `check_ffmpeg_gpu_support` mutates the single
`ffmpeg_gpu_support` mapping created at construction in place, flag by
flag (`cuda`, `opencl`, `dxva2`, `d3d11va`, then `nvenc`, `amf`); no
fresh snapshot value is produced, and the probe's observable state trace
contains an intermediate mapping whose hardware-accelerator flags are
already the new probe's results while both encoder flags still hold
their previous values. -/
theorem probe_mutates_mapping_in_place (s0 : SupportFlags) (path o1 o2 : String)
    (hp : ¬ path = "") :
    ∃ mid ∈ checkSupportStates s0 path (.ok o1) (.ok o2),
      mid.cuda = containsStr (pyLower o1) "cuda" ∧
      mid.opencl = containsStr (pyLower o1) "opencl" ∧
      mid.dxva2 = containsStr (pyLower o1) "dxva2" ∧
      mid.d3d11va = containsStr (pyLower o1) "d3d11va" ∧
      mid.nvenc = s0.nvenc ∧ mid.amf = s0.amf := by
  refine ⟨{ { { { s0 with cuda := containsStr (pyLower o1) "cuda" } with
      opencl := containsStr (pyLower o1) "opencl" } with
      dxva2 := containsStr (pyLower o1) "dxva2" } with
      d3d11va := containsStr (pyLower o1) "d3d11va" }, ?_, rfl, rfl, rfl, rfl, rfl, rfl⟩
  simp only [checkSupportStates, hwaccelStates, encoderStates, if_neg hp]
  simp [List.mem_append, List.mem_cons]

/-- Closed witness for the C4 amended theorem. -/
theorem probe_mutates_mapping_in_place_witness :
    ¬ ("/usr/bin/ffmpeg" : String) = "" ∧
    ∃ mid ∈ checkSupportStates initSupport "/usr/bin/ffmpeg"
        (.ok "cuda opencl") (.ok "h264_amf"),
      mid.cuda = containsStr (pyLower "cuda opencl") "cuda" ∧
      mid.opencl = containsStr (pyLower "cuda opencl") "opencl" ∧
      mid.dxva2 = containsStr (pyLower "cuda opencl") "dxva2" ∧
      mid.d3d11va = containsStr (pyLower "cuda opencl") "d3d11va" ∧
      mid.nvenc = initSupport.nvenc ∧ mid.amf = initSupport.amf :=
  ⟨by decide,
    probe_mutates_mapping_in_place initSupport "/usr/bin/ffmpeg"
      "cuda opencl" "h264_amf" (by decide)⟩

/-- C3 counterexample: a state transition out of `Running` is observable
before the final progress notification for the run.  `stop_process` on a
`RUNNING` instance synchronously sets the status to `CANCELLED` and
fires the status callback on the caller's thread; the monitor thread's
single final progress callback (video_processor.py:165-167) is delivered
only afterwards, so in the cancellation scenario the event sequence
starts with the `CANCELLED` notification and ends with the final
progress notification.  The same inversion holds without any
cancellation: on exit code 0 the monitor fires the `COMPLETED` status
notification (video_processor.py:151-155) before its final progress
callback. -/
theorem transition_observable_before_final_progress :
    (stop_process ⟨ProcessStatus.RUNNING, initProgress, "", "视频切割", none, false⟩).1.status =
      ProcessStatus.CANCELLED ∧
    (stop_process ⟨ProcessStatus.RUNNING, initProgress, "", "视频切割", none, false⟩).2.1 =
      [.statusNotify ProcessStatus.CANCELLED "视频切割已取消"] ∧
    (cancelScenario ⟨ProcessStatus.RUNNING, initProgress, "", "视频切割", none, false⟩ 0).2 =
      [.statusNotify ProcessStatus.CANCELLED "视频切割已取消",
       .progressNotify initProgress] ∧
    (monitorTail ⟨ProcessStatus.RUNNING, initProgress, "", "视频切割", none, false⟩ 0).2 =
      [.statusNotify ProcessStatus.COMPLETED "视频切割完成",
       .progressNotify { initProgress with percentage := 100 }] := by
  exact ⟨by decide, by decide, by decide, by decide⟩

/-- C3 amended: transitions out of `Running` become observable before the
final progress notification, not after it: cancellation synchronously
publishes `CANCELLED` (state and status callback) and the monitor then
delivers the final progress notification, and for process exit the
monitor fires the terminal status notification (`COMPLETED` or `ERROR`)
strictly before its one final progress notification. -/
theorem status_precedes_final_progress (s : VPState) (rc : Int)
    (hs : s.status = ProcessStatus.RUNNING) (hse : s.stop_event = false) :
    (cancelScenario s rc).2 =
      [.statusNotify ProcessStatus.CANCELLED (s.current_task ++ "已取消"),
       .progressNotify s.progress] ∧
    ∃ st msg, st ≠ ProcessStatus.RUNNING ∧
      (monitorTail s rc).2 =
        [.statusNotify st msg, .progressNotify (monitorTail s rc).1.progress] := by
  constructor
  · have hns : ¬ s.status ≠ ProcessStatus.RUNNING := by simp [hs]
    simp [cancelScenario, stop_process, monitorTail, hns]
  · by_cases hrc : rc = 0
    · subst hrc
      refine ⟨ProcessStatus.COMPLETED, s.current_task ++ "完成", by decide, ?_⟩
      simp [monitorTail, hse]
    · refine ⟨ProcessStatus.ERROR, s.current_task ++ "失败: " ++
        (if s.error_message = "" then "FFmpeg进程退出，返回码: " ++ intStr rc
         else s.error_message), by decide, ?_⟩
      simp [monitorTail, hse, hrc]

/-- Closed witness for the C3 amended theorem at a concrete running
state and exit code 2. -/
theorem status_precedes_final_progress_witness :
    (⟨ProcessStatus.RUNNING, initProgress, "", "task", none, false⟩ : VPState).status =
      ProcessStatus.RUNNING ∧
    (⟨ProcessStatus.RUNNING, initProgress, "", "task", none, false⟩ : VPState).stop_event =
      false ∧
    ((cancelScenario ⟨ProcessStatus.RUNNING, initProgress, "", "task", none, false⟩ 2).2 =
      [.statusNotify ProcessStatus.CANCELLED ("task" ++ "已取消"),
       .progressNotify initProgress] ∧
     ∃ st msg, st ≠ ProcessStatus.RUNNING ∧
       (monitorTail ⟨ProcessStatus.RUNNING, initProgress, "", "task", none, false⟩ 2).2 =
         [.statusNotify st msg,
          .progressNotify (monitorTail ⟨ProcessStatus.RUNNING, initProgress, "", "task",
            none, false⟩ 2).1.progress]) :=
  ⟨rfl, rfl,
    status_precedes_final_progress ⟨ProcessStatus.RUNNING, initProgress, "", "task", none,
      false⟩ 2 rfl rfl⟩

theorem vp_tts_000500 : vp_time_to_seconds "00:05:00.00" = 300 := by
  have hs : splitOnCharL ':' "00:05:00.00".data =
      ["00".data, "05".data, "00.00".data] := by decide
  have h1 : pyFloat "00".data = some (ratOfParts 0 []) := rfl
  have h2 : pyFloat "05".data = some (ratOfParts 5 []) := rfl
  have h3 : pyFloat "00.00".data = some (ratOfParts 0 ['0', '0']) := rfl
  have n1 : natOfDigits ([] : List Char) = 0 := rfl
  have n2 : natOfDigits ['0', '0'] = 0 := by decide
  have e1 : ratOfParts 0 [] = 0 := by norm_num [ratOfParts, n1]
  have e2 : ratOfParts 5 [] = 5 := by norm_num [ratOfParts, n1]
  have e3 : ratOfParts 0 ['0', '0'] = 0 := by norm_num [ratOfParts, n2]
  simp only [vp_time_to_seconds, hs, h1, h2, h3, e1, e2, e3]
  norm_num

theorem ratOfParts_two : ratOfParts 2 ['0'] = 2 := by
  have n : natOfDigits ['0'] = 0 := by decide
  norm_num [ratOfParts, n]

theorem pyFloat_speed_two : pyFloat (stripX "2.0x") = some 2 := by
  have h : pyFloat (stripX "2.0x") = some (ratOfParts 2 ['0']) := rfl
  rw [h, ratOfParts_two]

theorem derive_formula (p : ProcessProgress) (total c v : ℚ)
    (htot : 0 < total) (hc : vp_time_to_seconds p.time_processed = c) (hcpos : 0 < c)
    (hcle : c ≤ total) (hv : pyFloat (stripX p.speed) = some v) (hvpos : 0 < v) :
    (derive_percentage_eta p (some total)).percentage = min 100 (100 * c / total) ∧
    (derive_percentage_eta p (some total)).eta =
      seconds_to_time ⌊(total - c) / v⌋ := by
  have htp : p.time_processed ≠ "" := by
    intro h
    rw [h] at hc
    have h0 : vp_time_to_seconds "" = 0 := rfl
    rw [h0] at hc
    rw [← hc] at hcpos
    exact lt_irrefl 0 hcpos
  have hsp : p.speed ≠ "" := by
    intro h
    rw [h] at hv
    have h0 : pyFloat (stripX "") = none := rfl
    rw [h0] at hv
    cases hv
  have hpct : 0 < min (100 : ℚ) (c / total * 100) := by
    apply lt_min (by norm_num)
    positivity
  have htr : pyTrunc ((total - c) / v) = ⌊(total - c) / v⌋ := by
    unfold pyTrunc
    rw [if_pos (div_nonneg (sub_nonneg.2 hcle) hvpos.le)]
  have hres : derive_percentage_eta p (some total) =
      { p with percentage := min 100 (c / total * 100),
               eta := seconds_to_time (pyTrunc ((total - c) / v)) } := by
    simp only [derive_percentage_eta]
    rw [if_pos ⟨htot, htp⟩, hc, if_pos hcpos]
    rw [if_pos ⟨hpct, hsp⟩, hv]
    simp [hvpos]
  rw [hres, htr]
  constructor
  · show min 100 (c / total * 100) = min 100 (100 * c / total)
    rw [div_mul_eq_mul_div, mul_comm c 100]
  · rfl

/-- C8: with a total-duration hint of 600 seconds, parsing the line
`time=00:05:00.00 speed=2.0x` sets the percentage to exactly 50 and the
ETA to `00:02:30`; and in general the derivation block
(video_processor.py:239-256) computes
`percentage = min(100, 100 * processedSeconds / totalSeconds)` and
`eta = (totalSeconds - processedSeconds) / speedMultiplier` floored to
whole seconds and rendered `HH:MM:SS`, exactly when the hint is positive,
the processed time is positive, and the speed parses to a known positive
number (stated with `processed ≤ total`, where Python's `int()`
truncation coincides with the floor). -/
theorem percentage_eta_formula :
    ((parse_progress_line initProgress "" (some 600)
        "time=00:05:00.00 speed=2.0x").progress.percentage = 50 ∧
     (parse_progress_line initProgress "" (some 600)
        "time=00:05:00.00 speed=2.0x").progress.eta = "00:02:30") ∧
    (∀ (p : ProcessProgress) (total c v : ℚ),
      0 < total → vp_time_to_seconds p.time_processed = c → 0 < c → c ≤ total →
      pyFloat (stripX p.speed) = some v → 0 < v →
      (derive_percentage_eta p (some total)).percentage = min 100 (100 * c / total) ∧
      (derive_percentage_eta p (some total)).eta =
        seconds_to_time ⌊(total - c) / v⌋) := by
  constructor
  · have hkw : hasAnyKeyword (pyLower "time=00:05:00.00 speed=2.0x") errorKeywords
        = false := by decide
    have hmk : hasAnyKeyword "time=00:05:00.00 speed=2.0x" progressMarkers = true := by
      decide
    have hpipe : updFrame (updFps (updBitrate (updSpeed
        (updTime initProgress "time=00:05:00.00 speed=2.0x")
          "time=00:05:00.00 speed=2.0x") "time=00:05:00.00 speed=2.0x")
          "time=00:05:00.00 speed=2.0x") "time=00:05:00.00 speed=2.0x" =
        { initProgress with time_processed := "00:05:00.00", speed := "2.0x" } := by
      decide
    have hprog : (parse_progress_line initProgress "" (some 600)
        "time=00:05:00.00 speed=2.0x").progress =
        derive_percentage_eta
          { initProgress with time_processed := "00:05:00.00", speed := "2.0x" }
          (some 600) := by
      simp only [parse_progress_line, hkw, hmk, Bool.false_eq_true, if_false,
        Bool.not_true, not_true_eq_false]
      rw [hpipe]
    have hder := derive_formula
      { initProgress with time_processed := "00:05:00.00", speed := "2.0x" }
      600 300 2 (by norm_num) vp_tts_000500 (by norm_num) (by norm_num)
      pyFloat_speed_two (by norm_num)
    constructor
    · rw [hprog, hder.1]
      rw [min_def]
      norm_num
    · rw [hprog, hder.2]
      have hq : ((600 : ℚ) - 300) / 2 = 150 := by norm_num
      rw [hq]
      have hf : ⌊(150 : ℚ)⌋ = 150 := by norm_num
      rw [hf]
      decide
  · exact fun p total c v htot hc hcpos hcle hv hvpos =>
      derive_formula p total c v htot hc hcpos hcle hv hvpos

/-- Closed witness for the general part of C8 at the record reached after
parsing `time=00:05:00.00 speed=2.0x` with a 600-second hint. -/
theorem percentage_eta_formula_witness :
    (0 : ℚ) < 600 ∧
    vp_time_to_seconds
      ({ initProgress with time_processed := "00:05:00.00", speed := "2.0x" } :
        ProcessProgress).time_processed = 300 ∧
    (0 : ℚ) < 300 ∧ (300 : ℚ) ≤ 600 ∧
    pyFloat (stripX
      ({ initProgress with time_processed := "00:05:00.00", speed := "2.0x" } :
        ProcessProgress).speed) = some 2 ∧ (0 : ℚ) < 2 ∧
    ((derive_percentage_eta
        { initProgress with time_processed := "00:05:00.00", speed := "2.0x" }
        (some 600)).percentage = min 100 (100 * 300 / 600) ∧
     (derive_percentage_eta
        { initProgress with time_processed := "00:05:00.00", speed := "2.0x" }
        (some 600)).eta = seconds_to_time ⌊((600 : ℚ) - 300) / 2⌋) :=
  ⟨by norm_num, vp_tts_000500, by norm_num, by norm_num, pyFloat_speed_two, by norm_num,
    (percentage_eta_formula.2
      { initProgress with time_processed := "00:05:00.00", speed := "2.0x" }
      600 300 2 (by norm_num) vp_tts_000500 (by norm_num) (by norm_num)
      pyFloat_speed_two (by norm_num))⟩

end FFmpegImp
